import Mathlib

/-!
Shallow embedding of the audio processing and routing engine
(src/audio_processing/processors.py, src/core/audio_router.py,
src/core/virtual_devices.py, src/core/audio_devices.py), together with
theorems settling the frozen claims about it.

Samples and parameters are modelled as exact rationals; the elementwise
numpy operations that can produce non-finite floats (division by a zero
threshold in NoiseReducer) are modelled by the value type NpF below.
-/

/-- Result value of an elementwise numpy float operation: a finite value,
a signed infinity, or NaN. Inputs to the processors are finite, so NpF
appears only where the source can divide by zero. -/
inductive NpF where
  | fin (q : ℚ)
  | inf
  | ninf
  | nan
deriving DecidableEq

/-- Elementwise numpy float division of finite operands, IEEE-754 style:
x / 0 is NaN when x = 0 and a signed infinity otherwise; any other
division is exact. -/
def np_div (a b : ℚ) : NpF :=
  if b = 0 then (if a = 0 then NpF.nan else if 0 < a then NpF.inf else NpF.ninf)
  else NpF.fin (a / b)

/-- numpy clip of a value to the interval from 0 to 1: NaN propagates,
infinities saturate, finite values clamp. -/
def np_clip01 : NpF → NpF
  | NpF.fin q => NpF.fin (max 0 (min 1 q))
  | NpF.inf => NpF.fin 1
  | NpF.ninf => NpF.fin 0
  | NpF.nan => NpF.nan

/-- numpy product of a finite float with a possibly non-finite float:
NaN propagates, and 0 times an infinity is NaN. -/
def np_mul_fin (x : ℚ) : NpF → NpF
  | NpF.fin q => NpF.fin (x * q)
  | NpF.nan => NpF.nan
  | NpF.inf => if 0 < x then NpF.inf else if x < 0 then NpF.ninf else NpF.nan
  | NpF.ninf => if 0 < x then NpF.ninf else if x < 0 then NpF.inf else NpF.nan

/-- NoiseReducer._process_impl, per sample (processors.py lines 384 to 396):
magnitude is the absolute value of the sample, the soft mask is
clip of (magnitude minus threshold) over threshold to the unit interval,
and the result is the sample times the soft mask. The boolean mask
computed on line 388 of the source is never used. -/
def NoiseReducer.soft_gate (threshold x : ℚ) : NpF :=
  np_mul_fin x (np_clip01 (np_div (|x| - threshold) threshold))

/-- NoiseReducer._process_impl on a one-dimensional (mono) buffer:
the elementwise soft gate applied to every sample. -/
def NoiseReducer.process_impl (threshold : ℚ) (data : List ℚ) : List NpF :=
  data.map (NoiseReducer.soft_gate threshold)

/-- SpatialEnhancer._process_impl, per stereo frame (processors.py lines
353 to 362): mid is the mean of the channels, side is half the difference
scaled by one plus width, and the output frame is mid plus side on the
left and mid minus side on the right. -/
def SpatialEnhancer.transform_frame (width : ℚ) (p : ℚ × ℚ) : ℚ × ℚ :=
  ((p.1 + p.2) / 2 + (p.1 - p.2) / 2 * (1 + width),
   (p.1 + p.2) / 2 - (p.1 - p.2) / 2 * (1 + width))

/-- np.max of np.abs over a stereo buffer, written as a fold; every
absolute value is nonnegative, so starting the fold at 0 gives the same
value as np.max on a nonempty buffer. -/
def peakAbs (l : List (ℚ × ℚ)) : ℚ :=
  l.foldr (fun p m => max (max |p.1| |p.2|) m) 0

/-- SpatialEnhancer._process_impl on a stereo buffer (processors.py lines
348 to 371): widen every frame, then divide the whole result by its peak
absolute value when that peak exceeds 1. On an empty buffer np.max of an
empty array raises, modelled by the error case; the non-stereo early
return is outside this stereo-typed embedding. -/
def SpatialEnhancer.process_impl (width : ℚ) (data : List (ℚ × ℚ)) :
    Except Unit (List (ℚ × ℚ)) :=
  let result := data.map (SpatialEnhancer.transform_frame width)
  if result = [] then Except.error ()
  else
    let max_val := peakAbs result
    if 1 < max_val then
      Except.ok (result.map (fun p => (p.1 / max_val, p.2 / max_val)))
    else Except.ok result

/-- A pair of biquad coefficient vectors (numerator b, denominator a), as
returned by scipy.signal.butter and stored in Equalizer.filters. -/
structure Coeffs where
  b : List ℝ
  a : List ℝ

/-- scipy.signal.butter of order 2 with low btype: an external numeric
library routine, modelled as an unspecified function of the normalized
cutoff frequency. No claim inspects the coefficient values. -/
noncomputable def scipy_butter_low : ℝ → Coeffs :=
  Classical.choice ⟨fun _ => ⟨[], []⟩⟩

/-- scipy.signal.butter of order 2 with high btype, modelled like
scipy_butter_low. -/
noncomputable def scipy_butter_high : ℝ → Coeffs :=
  Classical.choice ⟨fun _ => ⟨[], []⟩⟩

/-- scipy.signal.butter of order 2 with band btype, a function of the two
normalized band edges, modelled like scipy_butter_low. -/
noncomputable def scipy_butter_band : ℝ → ℝ → Coeffs :=
  Classical.choice ⟨fun _ _ => ⟨[], []⟩⟩

/-- Conversion from dB to linear gain: 10 to the power g over 20
(processors.py line 145). -/
noncomputable def db_to_linear (g : ℚ) : ℝ := (10 : ℝ) ^ ((g : ℝ) / 20)

/-- np.logspace lo hi n: n points whose base-10 logarithms are evenly
spaced from lo to hi inclusive; a single point sits at lo. -/
noncomputable def np_logspace (lo hi : ℝ) (n : ℕ) : List ℝ :=
  if n = 1 then [(10 : ℝ) ^ lo]
  else (List.range n).map (fun i => (10 : ℝ) ^ (lo + (i : ℝ) * (hi - lo) / ((n : ℝ) - 1)))

/-- The log-spaced band frequency table of the Equalizer
(processors.py lines 93 to 97 and 202 to 206): np.logspace between the
base-10 logarithms of min_freq and max_freq with one point per band. -/
noncomputable def Equalizer.frequencies_table (min_freq max_freq : ℚ) (bands : ℕ) : List ℝ :=
  np_logspace (Real.logb 10 (min_freq : ℝ)) (Real.logb 10 (max_freq : ℝ)) bands

/-- State of an Equalizer instance. The native backend field of the
source is omitted: __init__ unconditionally resets it to None on line 88,
so every Equalizer built by this code runs the Python fallback path. -/
structure Equalizer where
  enabled : Bool
  sample_rate : ℚ
  bands : ℕ
  min_freq : ℚ
  max_freq : ℚ
  frequencies : List ℝ
  gains : List ℚ
  smoothed_gains : List ℚ
  smoothing_tau_sec : ℚ
  alpha : ℚ
  epsilon_db : ℚ
  needs_update : Bool
  output_gain_db : ℚ
  filters : List Coeffs

/-- Equalizer.update_filters (processors.py lines 134 to 179): for every
band whose gain is at least 0.1 dB in magnitude, design a butterworth
filter (low shelf for the first band, high shelf for the last band,
band-pass with bandwidth equal to the center frequency for interior
bands) and scale its numerator by the linear gain when the gain is
positive, its denominator otherwise. -/
noncomputable def Equalizer.update_filters_coeffs
    (sample_rate : ℚ) (bands : ℕ) (freqs : List ℝ) (gains : List ℚ) : List Coeffs :=
  freqs.enum.filterMap (fun if_ =>
    let i := if_.1
    let freq := if_.2
    let g := gains.getD i 0
    if |g| < 1/10 then none
    else
      let lin := db_to_linear g
      let c :=
        if i = 0 then scipy_butter_low (freq / ((sample_rate : ℝ) / 2))
        else if i = bands - 1 then scipy_butter_high (freq / ((sample_rate : ℝ) / 2))
        else
          let bandwidth := freq / 1
          scipy_butter_band ((freq - bandwidth / 2) / ((sample_rate : ℝ) / 2))
            ((freq + bandwidth / 2) / ((sample_rate : ℝ) / 2))
      if 0 < g then some { c with b := c.b.map (· * lin) }
      else some { c with a := c.a.map (· * lin) })

/-- Equalizer.__init__ (processors.py lines 66 to 114): enabled, all
target and smoothed gains zero, 30 ms smoothing time constant, fallback
alpha 0.2, filter update epsilon 0.05 dB, zero output gain, dirty flag
set, and filters built from the all-zero gains. -/
noncomputable def Equalizer.init (sample_rate : ℚ) (bands : ℕ) : Equalizer :=
  let freqs := Equalizer.frequencies_table 20 20000 bands
  let gains : List ℚ := List.replicate bands 0
  { enabled := true
    sample_rate := sample_rate
    bands := bands
    min_freq := 20
    max_freq := 20000
    frequencies := freqs
    gains := gains
    smoothed_gains := List.replicate bands 0
    smoothing_tau_sec := 3/100
    alpha := 1/5
    epsilon_db := 1/20
    needs_update := true
    output_gain_db := 0
    filters := Equalizer.update_filters_coeffs sample_rate bands freqs gains }

/-- Equalizer.set_gain (processors.py lines 181 to 194): raises a
ValueError when the band index is negative or at least the band count,
before touching any attribute; otherwise it writes the target gain for
that band and sets the dirty flag, recomputing nothing else. -/
def Equalizer.set_gain (self : Equalizer) (band : ℤ) (gain_db : ℚ) :
    Except Unit Equalizer :=
  if band < 0 ∨ (self.bands : ℤ) ≤ band then Except.error ()
  else Except.ok { self with gains := self.gains.set band.toNat gain_db,
                             needs_update := true }

/-- The state of the Equalizer object after a set_gain call, whether it
returned or raised: the range check precedes every assignment, so on a
raise the object is unchanged. -/
def Equalizer.set_gain_post (self : Equalizer) (band : ℤ) (gain_db : ℚ) : Equalizer :=
  match self.set_gain band gain_db with
  | Except.ok s => s
  | Except.error _ => self

/-- The gain-array resize of Equalizer.set_bands (processors.py lines
207 to 210): a fresh zero array of the new size whose first
min(old length, new size) entries are copied from the old array.
List.getD returns 0 past the end of the old array, which is exactly the
zero fill. -/
def resize_gains (old : List ℚ) (bands : ℕ) : List ℚ :=
  (List.range bands).map (fun i => old.getD i 0)

/-- Equalizer.set_bands (processors.py lines 196 to 219): clamp the
count to at least 1, rebuild the log-spaced frequency table, resize the
target gains preserving the common prefix, reset the smoothed gains to a
copy of the resized targets, and rebuild the filters from the smoothed
gains. The dirty flag and all other fields are untouched. -/
noncomputable def Equalizer.set_bands (self : Equalizer) (bands : ℤ) : Equalizer :=
  let b := (max 1 bands).toNat
  let freqs := Equalizer.frequencies_table self.min_freq self.max_freq b
  let new_gains := resize_gains self.gains b
  { self with bands := b
              frequencies := freqs
              gains := new_gains
              smoothed_gains := new_gains
              filters := Equalizer.update_filters_coeffs self.sample_rate b freqs new_gains }

/-- Equalizer._process_impl (processors.py lines 263 to 285): when the
band count is zero or the buffer is empty the buffer is returned as is;
otherwise the loop multiplies the whole buffer elementwise by the raw
target gain of each band in turn, gains that are dB values. No smoothing
step, no filter, and no output gain is applied. -/
def Equalizer.process_impl (self : Equalizer) (data : List ℚ) : List ℚ :=
  if self.bands = 0 ∨ data.length = 0 then data
  else (List.range self.bands).foldl
    (fun d band => d.map (fun x => x * self.gains.getD band 0)) data

/-- Equalizer.process (processors.py lines 241 to 261): a disabled
processor returns the buffer unchanged; the native branch is dead because
__init__ forces the backend to None, so processing falls through to
_process_impl, whose embedding raises nothing for the surrounding
try block to catch. -/
def Equalizer.process (self : Equalizer) (data : List ℚ) : List ℚ :=
  if self.enabled then self.process_impl data else data

/-- The full effect of one Equalizer.process call on the object and the
buffer: the method body of process and _process_impl assigns to no
attribute of self (the in-place numpy multiplication mutates the buffer
argument only), so the post-state is the pre-state. -/
def Equalizer.process_run (self : Equalizer) (data : List ℚ) : Equalizer × List ℚ :=
  (self, self.process data)

/-- The state transition of one processing tick on a fixed buffer. -/
def Equalizer.tick_state (data : List ℚ) (self : Equalizer) : Equalizer :=
  (self.process_run data).1

/-- Lookup in a Python dict modelled as an association list: the value
stored under the first (most recent) occurrence of the key. -/
def alGet {α β : Type} [DecidableEq α] (l : List (α × β)) (k : α) : Option β :=
  (l.find? (fun p => decide (p.1 = k))).map (fun p => p.2)

/-- Assignment in a Python dict modelled as an association list: the new
binding shadows and replaces any previous binding of the key. -/
def alSet {α β : Type} [DecidableEq α] (l : List (α × β)) (k : α) (v : β) :
    List (α × β) :=
  (k, v) :: l.filter (fun p => decide (p.1 ≠ k))

/-- Deletion from a Python dict modelled as an association list. -/
def alErase {α β : Type} [DecidableEq α] (l : List (α × β)) (k : α) :
    List (α × β) :=
  l.filter (fun p => decide (p.1 ≠ k))

/-- Key membership test for a Python dict modelled as an association
list. -/
def alContains {α β : Type} [DecidableEq α] (l : List (α × β)) (k : α) : Bool :=
  (alGet l k).isSome

/-- Logical audio categories. The source keys its dicts by strings,
which it only ever compares for equality, so the category strings are
modelled as an abstract type with decidable equality: the five known
category names plus a tag for every other string. -/
inductive Category where
  | game
  | others
  | system
  | chat
  | microphone
  | unknown (tag : ℕ)
deriving DecidableEq

/-- The audio_types list of AudioDeviceManager
(audio_devices.py line 22). -/
def audio_types : List Category :=
  [Category.game, Category.others, Category.system, Category.chat, Category.microphone]

/-- Direction of a physical device. -/
inductive DeviceType where
  | input
  | output
deriving DecidableEq

/-- A physical device snapshot as enumerated by AudioDeviceManager:
only the index and direction matter to the routing logic. -/
structure PhysicalDevice where
  index : ℕ
  typ : DeviceType
deriving DecidableEq

/-- State of an AudioDeviceManager (audio_devices.py): the enumerated
devices, the device assigned to each audio type, and the per-session
route bookkeeping of route_session_to_device. -/
structure AudioDeviceManager where
  devices : List PhysicalDevice
  active_devices : List (Category × PhysicalDevice)
  session_routes : List (ℤ × ℕ)
deriving DecidableEq

/-- AudioDeviceManager.set_device_for_audio_type (audio_devices.py lines
65 to 82): raises on an unknown audio type, a missing device index, or a
direction mismatch (microphone wants an input device, every other type
wants an output device); otherwise records the device for the type. -/
def AudioDeviceManager.set_device_for_audio_type
    (self : AudioDeviceManager) (audio_type : Category) (device_index : ℕ) :
    Except Unit AudioDeviceManager :=
  if audio_type ∉ audio_types then Except.error ()
  else
    match self.devices.find? (fun d => decide (d.index = device_index)) with
    | none => Except.error ()
    | some device =>
      if audio_type = Category.microphone ∧ device.typ ≠ DeviceType.input then
        Except.error ()
      else if audio_type ≠ Category.microphone ∧ device.typ ≠ DeviceType.output then
        Except.error ()
      else
        Except.ok { self with active_devices := alSet self.active_devices audio_type device }

/-- AudioDeviceManager.get_device_for_audio_type (audio_devices.py lines
84 to 89): raises on an unknown audio type, otherwise returns the
assigned device if any. -/
def AudioDeviceManager.get_device_for_audio_type
    (self : AudioDeviceManager) (audio_type : Category) :
    Except Unit (Option PhysicalDevice) :=
  if audio_type ∉ audio_types then Except.error ()
  else Except.ok (alGet self.active_devices audio_type)

/-- AudioDeviceManager.route_session_to_device (audio_devices.py lines
271 to 276): records the target device index for the pid and returns
True. -/
def AudioDeviceManager.route_session_to_device
    (self : AudioDeviceManager) (pid : ℤ) (device_index : ℕ) :
    AudioDeviceManager × Bool :=
  ({ self with session_routes := alSet self.session_routes pid device_index }, true)

/-- A VirtualAudioDevice (virtual_devices.py): the routing claims only
need its name and activity flag; the stream handle and processing chain
are irrelevant to them. -/
structure VirtualAudioDevice where
  name : ℕ
  is_active : Bool
deriving DecidableEq

/-- State of a VirtualAudioRouter (virtual_devices.py lines 100 to 106):
its own virtual devices and its own routing table mapping source device
names to destination device names. -/
structure VirtualAudioRouter where
  virtual_devices : List (ℕ × VirtualAudioDevice)
  routing_table : List (ℕ × ℕ)
deriving DecidableEq

/-- VirtualAudioRouter.remove_virtual_device (virtual_devices.py lines
117 to 133): returns False untouched for an unknown name; otherwise
calls stop exactly once on the device (counted in the third component),
deletes every routing_table entry whose source or destination is the
name, deletes the device, and returns True. -/
def VirtualAudioRouter.remove_virtual_device
    (self : VirtualAudioRouter) (name : ℕ) :
    Bool × VirtualAudioRouter × ℕ :=
  match alGet self.virtual_devices name with
  | none => (false, self, 0)
  | some _ =>
    (true,
     { virtual_devices := alErase self.virtual_devices name
       routing_table :=
         self.routing_table.filter (fun p => decide (p.1 ≠ name ∧ p.2 ≠ name)) },
     1)

/-- State of an AudioRoutingSystem (audio_router.py lines 11 to 18):
category routes mapping each audio type to a physical device id and a
virtual bus name, the owned virtual router and device manager, the
unified device mode configuration, and the sticky session category
overrides. -/
structure AudioRoutingSystem where
  device_manager : AudioDeviceManager
  virtual_router : VirtualAudioRouter
  routes : List (Category × (ℕ × ℕ))
  unified_device_mode : Bool
  unified_output_device : Option ℕ
  unified_input_device : Option ℕ
  session_categories : List (ℤ × Category)
deriving DecidableEq

/-- Python truthiness of an optional device id: None and 0 are falsy,
every other int is truthy. -/
def truthy : Option ℕ → Bool
  | none => false
  | some n => decide (n ≠ 0)

/-- AudioRoutingSystem.set_unified_device_mode (audio_router.py lines 20
to 38): store the flag; when enabling, store both ids and push the
output id onto the four output categories and the input id onto the
microphone category, each push guarded by Python truthiness of the id. -/
def AudioRoutingSystem.set_unified_device_mode
    (self : AudioRoutingSystem) (enabled : Bool)
    (output_device_id input_device_id : Option ℕ) :
    Except Unit AudioRoutingSystem :=
  let st := { self with unified_device_mode := enabled }
  if enabled then do
    let st := { st with unified_output_device := output_device_id
                        unified_input_device := input_device_id }
    let dm ←
      if truthy output_device_id then
        [Category.game, Category.others, Category.system, Category.chat].foldlM
          (fun dm t => dm.set_device_for_audio_type t (output_device_id.getD 0))
          st.device_manager
      else Except.ok st.device_manager
    let dm ←
      if truthy input_device_id then
        dm.set_device_for_audio_type Category.microphone (input_device_id.getD 0)
      else Except.ok dm
    Except.ok { st with device_manager := dm }
  else Except.ok st

/-- The unified-mode device override at the top of
AudioRoutingSystem.create_route (audio_router.py lines 57 to 62): when
unified mode is on, a truthy unified input id replaces the supplied
device id for the microphone category and a truthy unified output id
replaces it for every other category; otherwise the supplied id is
kept. -/
def AudioRoutingSystem.unified_resolve
    (self : AudioRoutingSystem) (audio_type : Category)
    (physical_device_id : ℕ) : ℕ :=
  if self.unified_device_mode then
    if audio_type = Category.microphone ∧ truthy self.unified_input_device then
      self.unified_input_device.getD 0
    else if audio_type ≠ Category.microphone ∧ truthy self.unified_output_device then
      self.unified_output_device.getD 0
    else physical_device_id
  else physical_device_id

/-- AudioRoutingSystem.create_route (audio_router.py lines 48 to 74):
after the unified-mode override, the device is assigned to the audio
type (which may raise), the named virtual bus is created if missing,
and the route is stored under the category. -/
def AudioRoutingSystem.create_route
    (self : AudioRoutingSystem) (audio_type : Category)
    (physical_device_id : ℕ) (virtual_device_name : ℕ) :
    Except Unit AudioRoutingSystem :=
  let phys := self.unified_resolve audio_type physical_device_id
  do
    let dm ← self.device_manager.set_device_for_audio_type audio_type phys
    let vr :=
      if (alGet self.virtual_router.virtual_devices virtual_device_name).isNone then
        { self.virtual_router with
            virtual_devices := alSet self.virtual_router.virtual_devices
              virtual_device_name ⟨virtual_device_name, false⟩ }
      else self.virtual_router
    Except.ok { self with device_manager := dm
                          virtual_router := vr
                          routes := alSet self.routes audio_type (phys, virtual_device_name) }

/-- Removing a virtual bus at the system level: the repository exposes
bus removal only through the virtual router
(VirtualAudioRouter.remove_virtual_device applied to the routing
system's router field); no method of AudioRoutingSystem removes entries
of its routes dict in response. -/
def AudioRoutingSystem.remove_virtual_bus
    (self : AudioRoutingSystem) (name : ℕ) :
    Bool × AudioRoutingSystem × ℕ :=
  let r := self.virtual_router.remove_virtual_device name
  (r.1, { self with virtual_router := r.2.1 }, r.2.2)

/-- AudioRoutingSystem.route_session_to_category (audio_router.py lines
184 to 192): look up the device assigned to the category (the failure
branches, including the caught exception for an unknown category, return
False); when a device is assigned, route the session to it and return
the result. -/
def AudioRoutingSystem.route_session_to_category
    (self : AudioRoutingSystem) (pid : ℤ) (category : Category) :
    AudioRoutingSystem × Bool :=
  match self.device_manager.get_device_for_audio_type category with
  | Except.error _ => (self, false)
  | Except.ok none => (self, false)
  | Except.ok (some dev) =>
    let r := self.device_manager.route_session_to_device pid dev.index
    ({ self with device_manager := r.1 }, r.2)

/-- AudioRoutingSystem.set_session_category (audio_router.py lines 172
to 178): returns False immediately for a category outside the four
output categories; otherwise records the sticky override and then
returns whatever routing the session to the category returns. -/
def AudioRoutingSystem.set_session_category
    (self : AudioRoutingSystem) (pid : ℤ) (category : Category) :
    AudioRoutingSystem × Bool :=
  if category ∉ [Category.game, Category.others, Category.system, Category.chat] then
    (self, false)
  else
    let st := { self with session_categories := alSet self.session_categories pid category }
    st.route_session_to_category pid category

/-- The value a call to create_route leaves stored in the routes dict
under the category: the route entry on success, nothing when the call
raised. -/
def routeStoredDevice (st : AudioRoutingSystem) (audio_type : Category)
    (physical_device_id virtual_device_name : ℕ) : Option (ℕ × ℕ) :=
  match st.create_route audio_type physical_device_id virtual_device_name with
  | Except.ok st' => alGet st'.routes audio_type
  | Except.error _ => none

/-- A routing system whose virtual router owns bus 7 (active) and whose
routing table and category routes reference it: categories game and chat
both route through bus 7. -/
def c6_state : AudioRoutingSystem :=
  { device_manager := ⟨[], [], []⟩
    virtual_router := ⟨[(7, ⟨7, true⟩)], [(7, 9), (8, 7), (5, 6)]⟩
    routes := [(Category.game, (1, 7)), (Category.chat, (2, 7))]
    unified_device_mode := false
    unified_output_device := none
    unified_input_device := none
    session_categories := [] }

/-- A device manager enumerating output devices 0 and 1 and input
device 2. Index 0 is a legal device index. -/
def c7_dm : AudioDeviceManager :=
  ⟨[⟨0, DeviceType.output⟩, ⟨1, DeviceType.output⟩, ⟨2, DeviceType.input⟩], [], []⟩

/-- A fresh routing system over c7_dm, unified mode off. -/
def c7_state0 : AudioRoutingSystem :=
  ⟨c7_dm, ⟨[], []⟩, [], false, none, none, []⟩

/-- c7_state0 after set_unified_device_mode true (some 0) none: the mode
and ids are stored, but the falsy output id 0 skips every device push. -/
def c7_state1 : AudioRoutingSystem :=
  { c7_state0 with unified_device_mode := true
                   unified_output_device := some 0
                   unified_input_device := none }

/-- A routing system over c7_dm with unified mode enabled with truthy
output device 1 and truthy input device 2. -/
def c7w_state : AudioRoutingSystem :=
  ⟨c7_dm, ⟨[], []⟩, [], true, some 1, some 2, []⟩

/-- A fresh empty routing system: no devices are assigned to any
category, so routing a session to any category fails. -/
def c10_state : AudioRoutingSystem :=
  ⟨⟨[], [], []⟩, ⟨[], []⟩, [], false, none, none, []⟩

/-- A 4-band equalizer with distinct nonzero target gains, used to
exhibit the set_bands round trip on concrete data. -/
noncomputable def c9_state : Equalizer :=
  { Equalizer.init 48000 4 with gains := [5, 7, 9, 11] }

theorem soft_gate_zero_of_ne {x : ℚ} (hx : x ≠ 0) :
    NoiseReducer.soft_gate 0 x = NpF.fin x := by
  have habs : 0 < |x| := abs_pos.mpr hx
  simp [NoiseReducer.soft_gate, np_div, sub_zero, habs, ne_of_gt habs,
    np_clip01, np_mul_fin]

theorem soft_gate_one_of_le {x : ℚ} (hx : |x| ≤ 1) :
    NoiseReducer.soft_gate 1 x = NpF.fin 0 := by
  have h1 : |x| - 1 ≤ 0 := by linarith
  have hmin : min 1 (|x| - 1) = |x| - 1 :=
    min_eq_right (by linarith)
  have hmax : max 0 (|x| - 1) = 0 := max_eq_left h1
  simp [NoiseReducer.soft_gate, np_div, np_clip01, np_mul_fin, hmin, hmax]

/-- C3 counterexample: with threshold 0 the NoiseReducer is not the
identity on every buffer: the buffer holding the single sample 0 is
mapped to NaN, because the soft mask divides zero by zero. -/
theorem noise_threshold_zero_not_identity :
    NoiseReducer.process_impl 0 [0] = [NpF.nan]
    ∧ NoiseReducer.process_impl 0 [0] ≠ [NpF.fin 0] := by
  constructor
  · simp [NoiseReducer.process_impl, NoiseReducer.soft_gate, np_div,
      np_clip01, np_mul_fin]
  · simp [NoiseReducer.process_impl, NoiseReducer.soft_gate, np_div,
      np_clip01, np_mul_fin]

/-- C3 (amended): with threshold 0 the NoiseReducer is the identity on
every buffer all of whose samples are nonzero (a zero sample is mapped
to NaN by the zero-over-zero soft-mask division); with threshold 1 the
output is all zeros for any input whose samples have magnitude at
most 1. -/
theorem noise_reducer_extremes_amended :
    (∀ data : List ℚ, (∀ x ∈ data, x ≠ 0) →
      NoiseReducer.process_impl 0 data = data.map NpF.fin)
    ∧ (∀ data : List ℚ, (∀ x ∈ data, |x| ≤ 1) →
      NoiseReducer.process_impl 1 data = data.map (fun _ => NpF.fin 0)) := by
  constructor
  · intro data h
    unfold NoiseReducer.process_impl
    exact List.map_congr_left (fun x hx => soft_gate_zero_of_ne (h x hx))
  · intro data h
    unfold NoiseReducer.process_impl
    exact List.map_congr_left (fun x hx => soft_gate_one_of_le (h x hx))

/-- C3 witness: the amended statement evaluated on concrete buffers,
one with all samples nonzero at threshold 0, one with magnitudes at
most 1 at threshold 1. -/
theorem noise_reducer_extremes_amended_witness :
    NoiseReducer.process_impl 0 [2, -3/4] = [2, -3/4].map NpF.fin
    ∧ NoiseReducer.process_impl 1 [1/2, -1] = ([1/2, -1] : List ℚ).map (fun _ => NpF.fin 0) :=
  ⟨noise_reducer_extremes_amended.1 [2, -3/4]
    (by intro x hx; fin_cases hx <;> norm_num),
   noise_reducer_extremes_amended.2 [1/2, -1]
    (by intro x hx; fin_cases hx <;> rw [abs] <;> norm_num [max_def])⟩

/-- C4 counterexample: a sample whose magnitude is above the threshold
is not passed through unchanged: with threshold one half, the sample
three quarters has magnitude above the threshold yet is attenuated to
three eighths. -/
theorem noise_gate_above_threshold_not_passthrough :
    NoiseReducer.soft_gate (1/2) (3/4) = NpF.fin (3/8)
    ∧ NoiseReducer.soft_gate (1/2) (3/4) ≠ NpF.fin (3/4) := by
  have habs : |(3/4 : ℚ)| = 3/4 := abs_of_pos (by norm_num)
  constructor
  · simp only [NoiseReducer.soft_gate, np_div, np_clip01, np_mul_fin, habs]
    norm_num [min_def, max_def]
  · simp only [NoiseReducer.soft_gate, np_div, np_clip01, np_mul_fin, habs]
    norm_num [min_def, max_def]

/-- C4 (amended): for a threshold t in the half-open unit interval, a
sample with magnitude at most t is zeroed, a sample with magnitude
between t and 2t is scaled linearly by (magnitude - t) / t, and full
pass-through holds only from magnitude 2t upward. -/
theorem noise_gate_amended (t x : ℚ) (ht : 0 < t) (_ht1 : t ≤ 1) :
    (|x| ≤ t → NoiseReducer.soft_gate t x = NpF.fin 0)
    ∧ (t ≤ |x| → |x| ≤ 2 * t →
        NoiseReducer.soft_gate t x = NpF.fin (x * ((|x| - t) / t)))
    ∧ (2 * t ≤ |x| → NoiseReducer.soft_gate t x = NpF.fin x) := by
  have htne : t ≠ 0 := ne_of_gt ht
  refine ⟨?_, ?_, ?_⟩
  · intro h
    have hv : (|x| - t) / t ≤ 0 :=
      div_nonpos_iff.mpr (Or.inr ⟨by linarith, ht.le⟩)
    simp [NoiseReducer.soft_gate, np_div, htne, np_clip01, np_mul_fin,
      min_eq_right (hv.trans zero_le_one), max_eq_left hv]
  · intro h1 h2
    have h0 : 0 ≤ (|x| - t) / t := div_nonneg (by linarith) ht.le
    have hle1 : (|x| - t) / t ≤ 1 := (div_le_one ht).mpr (by linarith)
    simp [NoiseReducer.soft_gate, np_div, htne, np_clip01, np_mul_fin,
      min_eq_right hle1, max_eq_right h0]
  · intro h
    have hge1 : 1 ≤ (|x| - t) / t := (one_le_div ht).mpr (by linarith)
    simp [NoiseReducer.soft_gate, np_div, htne, np_clip01, np_mul_fin,
      min_eq_left hge1]

/-- C4 witness: the amended soft-gate behavior at threshold one half on
the three regimes: magnitude below the threshold, between threshold and
twice the threshold, and above twice the threshold. -/
theorem noise_gate_amended_witness :
    NoiseReducer.soft_gate (1/2) (1/4) = NpF.fin 0
    ∧ NoiseReducer.soft_gate (1/2) (3/4)
      = NpF.fin ((3/4) * ((|(3/4 : ℚ)| - 1/2) / (1/2)))
    ∧ NoiseReducer.soft_gate (1/2) (-2) = NpF.fin (-2) :=
  ⟨(noise_gate_amended (1/2) (1/4) (by norm_num) (by norm_num)).1
      (by rw [abs_of_pos] <;> norm_num),
   (noise_gate_amended (1/2) (3/4) (by norm_num) (by norm_num)).2.1
      (by rw [abs_of_pos] <;> norm_num) (by rw [abs_of_pos] <;> norm_num),
   (noise_gate_amended (1/2) (-2) (by norm_num) (by norm_num)).2.2
      (by rw [abs_of_neg] <;> norm_num)⟩

theorem transform_frame_zero (p : ℚ × ℚ) :
    SpatialEnhancer.transform_frame 0 p = p := by
  cases p with
  | mk a b =>
    simp only [SpatialEnhancer.transform_frame, Prod.mk.injEq]
    constructor <;> ring

theorem peakAbs_cons (p : ℚ × ℚ) (l : List (ℚ × ℚ)) :
    peakAbs (p :: l) = max (max |p.1| |p.2|) (peakAbs l) := rfl

theorem peakAbs_div (l : List (ℚ × ℚ)) (m : ℚ) (hm : 0 < m) :
    peakAbs (l.map (fun p => (p.1 / m, p.2 / m))) = peakAbs l / m := by
  induction l with
  | nil => simp [peakAbs]
  | cons p l ih =>
    have hmono : Monotone (fun x : ℚ => x / m) :=
      fun a b hab => (div_le_div_iff_of_pos_right hm).mpr hab
    simp only [List.map_cons, peakAbs_cons, ih]
    rw [abs_div, abs_div, abs_of_pos hm]
    rw [← hmono.map_max, ← hmono.map_max]

/-- C5 counterexample: with width 0 the SpatialEnhancer is not the
identity on every stereo buffer: the single frame (2, 0) has peak
magnitude 2, so the result is peak-normalized to (1, 0). -/
theorem spatial_width_zero_not_identity :
    SpatialEnhancer.process_impl 0 [(2, 0)] = Except.ok [(1, 0)]
    ∧ ([((1 : ℚ), (0 : ℚ))] : List (ℚ × ℚ)) ≠ [(2, 0)] := by
  constructor
  · simp only [SpatialEnhancer.process_impl, List.map_cons, List.map_nil,
      transform_frame_zero]
    norm_num [peakAbs, max_def]
  · simp only [ne_eq, List.cons.injEq, Prod.mk.injEq]
    norm_num

/-- C5 (amended): with width 0 the SpatialEnhancer is the identity on
every nonempty stereo buffer whose peak magnitude is at most 1 (a louder
buffer is scaled down by its peak, and an empty buffer raises inside
np.max); and whenever processing returns a buffer, for any width, the
peak magnitude of that output buffer is at most 1. -/
theorem spatial_enhancer_amended :
    (∀ data : List (ℚ × ℚ), data ≠ [] → peakAbs data ≤ 1 →
      SpatialEnhancer.process_impl 0 data = Except.ok data)
    ∧ (∀ (width : ℚ) (data out : List (ℚ × ℚ)),
      SpatialEnhancer.process_impl width data = Except.ok out → peakAbs out ≤ 1) := by
  constructor
  · intro data hne hpk
    have hmap : data.map (SpatialEnhancer.transform_frame 0) = data := by
      rw [show SpatialEnhancer.transform_frame 0 = id from funext transform_frame_zero,
        List.map_id]
    simp only [SpatialEnhancer.process_impl, hmap]
    rw [if_neg hne, if_neg (not_lt.mpr hpk)]
  · intro width data out h
    simp only [SpatialEnhancer.process_impl] at h
    by_cases hne : data.map (SpatialEnhancer.transform_frame width) = []
    · rw [if_pos hne] at h
      exact absurd h (by simp)
    · rw [if_neg hne] at h
      by_cases hmax : 1 < peakAbs (data.map (SpatialEnhancer.transform_frame width))
      · rw [if_pos hmax] at h
        have hpos : 0 < peakAbs (data.map (SpatialEnhancer.transform_frame width)) :=
          lt_trans zero_lt_one hmax
        injection h with hout
        rw [← hout, peakAbs_div _ _ hpos, div_self (ne_of_gt hpos)]
      · rw [if_neg hmax] at h
        injection h with hout
        rw [← hout]
        exact not_lt.mp hmax

/-- C5 witness: the amended statement evaluated concretely: the quiet
frame (1/2, -1/2) passes through width 0 unchanged, and the loud buffer
of the counterexample comes out with peak magnitude at most 1. -/
theorem spatial_enhancer_amended_witness :
    SpatialEnhancer.process_impl 0 [(1/2, -1/2)] = Except.ok [(1/2, -1/2)]
    ∧ peakAbs [((1 : ℚ), (0 : ℚ))] ≤ 1 := by
  constructor
  · exact spatial_enhancer_amended.1 [(1/2, -1/2)] (by simp)
      (by rw [peakAbs_cons]; norm_num [peakAbs, abs, max_def])
  · apply spatial_enhancer_amended.2 0 [(2, 0)]
    simp only [SpatialEnhancer.process_impl, List.map_cons, List.map_nil,
      transform_frame_zero]
    norm_num [peakAbs, max_def]

theorem getD_replicate_self {α : Type} (a : α) (r i : ℕ) :
    (List.replicate r a).getD i a = a := by
  induction r generalizing i with
  | zero => simp [List.getD_nil]
  | succ n ih =>
    cases i with
    | zero => simp [List.replicate_succ, List.getD_cons_zero]
    | succ j => simp [List.replicate_succ, List.getD_cons_succ, ih]

/-- C1 (code evaluation at the failing input): a freshly initialized
10-band Equalizer (all target gains 0 dB, output gain 0 dB, no native
backend) processing the buffer holding the single sample 1 returns the
all-zero buffer: process multiplies the buffer by each raw per-band dB
gain instead of smoothing gains, applying the biquad cascade and the
output gain, under which a flat equalizer would leave the buffer at 1. -/
theorem equalizer_process_flat_zeroes_buffer :
    Equalizer.process (Equalizer.init 48000 10) [1] = [0]
    ∧ ([(0 : ℚ)] : List ℚ) ≠ [1] := by
  constructor
  · simp only [Equalizer.process, Equalizer.process_impl,
      show (Equalizer.init 48000 10).enabled = true from rfl,
      show (Equalizer.init 48000 10).bands = 10 from rfl,
      show (Equalizer.init 48000 10).gains = List.replicate 10 0 from rfl,
      if_true]
    rw [if_neg (by norm_num)]
    rw [show List.range 10 = [0, 1, 2, 3, 4, 5, 6, 7, 8, 9] from rfl]
    simp [getD_replicate_self, List.foldl_cons, List.foldl_nil]
  · intro h
    have := List.head_eq_of_cons_eq h
    norm_num at this

/-- C2 (code evaluation at the failing input): after set_gain 0 6 on a
fresh 10-band Equalizer, any number of processing ticks on any buffer
leaves the object state unchanged, its smoothed gains still all zero, so
the smoothed gain of band 0 never comes within 0.01 dB of the 6 dB
target: process never advances the smoothed gains. -/
theorem equalizer_smoothed_gains_never_converge :
    ∀ (k : ℕ) (buf : List ℚ),
      (Equalizer.tick_state buf)^[k] ((Equalizer.init 48000 10).set_gain_post 0 6)
        = (Equalizer.init 48000 10).set_gain_post 0 6
      ∧ ((Equalizer.init 48000 10).set_gain_post 0 6).smoothed_gains
        = List.replicate 10 0
      ∧ ¬ |((Equalizer.init 48000 10).set_gain_post 0 6).smoothed_gains.getD 0 0 - 6|
          ≤ 1/100 := by
  intro k buf
  refine ⟨Function.iterate_fixed rfl k, rfl, ?_⟩
  rw [show ((Equalizer.init 48000 10).set_gain_post 0 6).smoothed_gains.getD 0 0
      = 0 from rfl]
  rw [show (0 : ℚ) - 6 = -6 by norm_num, abs_of_neg (by norm_num : (-6 : ℚ) < 0)]
  norm_num

/-- C8: set_gain with a band index below 0 or at least the band count
raises a ValueError (the ConfigurationError of the spec taxonomy)
synchronously and leaves the equalizer state, including target gains,
smoothed gains, filters and the dirty flag, unchanged; with a valid
index it only writes that band of the target gains and sets the dirty
flag, leaving filters for the deferred recomputation. -/
theorem equalizer_set_gain_spec :
    (∀ (st : Equalizer) (band : ℤ) (g : ℚ),
      band < 0 ∨ (st.bands : ℤ) ≤ band →
        st.set_gain band g = Except.error () ∧ st.set_gain_post band g = st)
    ∧ (∀ (st : Equalizer) (band : ℤ) (g : ℚ),
      0 ≤ band → band < (st.bands : ℤ) →
        st.set_gain band g
          = Except.ok { st with gains := st.gains.set band.toNat g,
                                needs_update := true }) := by
  constructor
  · intro st band g h
    have herr : st.set_gain band g = Except.error () := by
      rw [Equalizer.set_gain, if_pos h]
    refine ⟨herr, ?_⟩
    rw [Equalizer.set_gain_post, herr]
  · intro st band g h1 h2
    rw [Equalizer.set_gain, if_neg]
    rintro (h | h) <;> omega

/-- C8 witness: a fresh 10-band Equalizer rejects band indices 10 and
-1 without touching its state, and accepts band index 0 by writing only
the target gain and the dirty flag. -/
theorem equalizer_set_gain_spec_witness :
    (Equalizer.init 48000 10).set_gain 10 3 = Except.error ()
    ∧ (Equalizer.init 48000 10).set_gain_post (-1) 3 = Equalizer.init 48000 10
    ∧ (Equalizer.init 48000 10).set_gain 0 6
      = Except.ok { Equalizer.init 48000 10 with
          gains := (Equalizer.init 48000 10).gains.set (0 : ℤ).toNat 6,
          needs_update := true } :=
  ⟨(equalizer_set_gain_spec.1 (Equalizer.init 48000 10) 10 3
      (Or.inr (by rw [show (Equalizer.init 48000 10).bands = 10 from rfl]; omega))).1,
   (equalizer_set_gain_spec.1 (Equalizer.init 48000 10) (-1) 3 (Or.inl (by omega))).2,
   equalizer_set_gain_spec.2 (Equalizer.init 48000 10) 0 6 (by omega)
      (by rw [show (Equalizer.init 48000 10).bands = 10 from rfl]; omega)⟩

theorem set_bands_gains (st : Equalizer) (b : ℤ) :
    (st.set_bands b).gains = resize_gains st.gains (max 1 b).toNat := rfl

theorem set_bands_frequencies (st : Equalizer) (b : ℤ) :
    (st.set_bands b).frequencies
      = Equalizer.frequencies_table st.min_freq st.max_freq (max 1 b).toNat := rfl

theorem set_bands_min_freq (st : Equalizer) (b : ℤ) :
    (st.set_bands b).min_freq = st.min_freq := rfl

theorem set_bands_max_freq (st : Equalizer) (b : ℤ) :
    (st.set_bands b).max_freq = st.max_freq := rfl

theorem resize_gains_getD (g : List ℚ) (b i : ℕ) :
    (resize_gains g b).getD i 0 = if i < b then g.getD i 0 else 0 := by
  unfold resize_gains
  by_cases h : i < b
  · rw [if_pos h, List.getD_eq_getD_get?, List.get?_map, List.get?_range h]
    rfl
  · rw [if_neg h, List.getD_eq_getD_get?, List.get?_map,
      List.get?_eq_none.mpr (by simpa using le_of_not_lt h)]
    rfl

/-- C9: for band counts n and m between 1 and 31, the sequence
set_bands n, set_bands m, set_bands n restores the original log-spaced
n-entry frequency table exactly, preserves the per-band target gains at
every index below min n m, and zero-fills the indices from min n m up
to n. -/
theorem equalizer_set_bands_roundtrip (st : Equalizer) (n m : ℕ)
    (hn1 : 1 ≤ n) (_hn2 : n ≤ 31) (hm1 : 1 ≤ m) (_hm2 : m ≤ 31)
    (_hb : st.bands = n) (_hg : st.gains.length = n)
    (hf : st.frequencies = Equalizer.frequencies_table st.min_freq st.max_freq n) :
    (((st.set_bands n).set_bands m).set_bands n).frequencies = st.frequencies
    ∧ (∀ i, i < min n m →
        (((st.set_bands n).set_bands m).set_bands n).gains.getD i 0
          = st.gains.getD i 0)
    ∧ (∀ i, min n m ≤ i → i < n →
        (((st.set_bands n).set_bands m).set_bands n).gains.getD i 0 = 0) := by
  have hn : (max 1 ((n : ℤ))).toNat = n := by omega
  have hm : (max 1 ((m : ℤ))).toNat = m := by omega
  refine ⟨?_, ?_, ?_⟩
  · rw [set_bands_frequencies, set_bands_min_freq, set_bands_min_freq,
      set_bands_max_freq, set_bands_max_freq, hn, hf]
  · intro i hi
    rw [set_bands_gains, set_bands_gains, set_bands_gains, hn, hm]
    rw [resize_gains_getD, if_pos (by omega), resize_gains_getD, if_pos (by omega),
      resize_gains_getD, if_pos (by omega)]
  · intro i h1 h2
    rw [set_bands_gains, set_bands_gains, hn, hm]
    rw [resize_gains_getD, if_pos h2, resize_gains_getD, if_neg (by omega)]

/-- C9 witness: the round trip evaluated on a 4-band equalizer with
gains 5, 7, 9, 11 through set_bands 4, set_bands 2, set_bands 4: the
frequency table is restored, index 1 keeps its gain, index 3 is
zero-filled. -/
theorem equalizer_set_bands_roundtrip_witness :
    (((c9_state.set_bands 4).set_bands 2).set_bands 4).frequencies = c9_state.frequencies
    ∧ (((c9_state.set_bands 4).set_bands 2).set_bands 4).gains.getD 1 0
      = c9_state.gains.getD 1 0
    ∧ (((c9_state.set_bands 4).set_bands 2).set_bands 4).gains.getD 3 0 = 0 := by
  obtain ⟨h1, h2, h3⟩ := equalizer_set_bands_roundtrip c9_state 4 2 (by omega) (by omega)
    (by omega) (by omega) rfl rfl rfl
  exact ⟨h1, h2 1 (by omega), h3 3 (by omega) (by omega)⟩

theorem alGet_alSet_self {α β : Type} [DecidableEq α] (l : List (α × β)) (k : α) (v : β) :
    alGet (alSet l k v) k = some v := by
  unfold alGet alSet
  rw [List.find?_cons_of_pos _ (by simp)]
  rfl

theorem alGet_alErase_self {α β : Type} [DecidableEq α] (l : List (α × β)) (k : α) :
    alGet (alErase l k) k = none := by
  unfold alGet alErase
  rw [List.find?_eq_none.mpr ?_]
  · rfl
  · intro x hx
    have hne := (List.mem_filter.mp hx).2
    simp only [decide_eq_true_eq] at hne
    simpa using hne

theorem route_session_preserves_categories (st : AudioRoutingSystem) (pid : ℤ)
    (category : Category) :
    (st.route_session_to_category pid category).1.session_categories
      = st.session_categories := by
  unfold AudioRoutingSystem.route_session_to_category
  split <;> rfl

/-- C10: set_session_category with a category outside game, others,
system, chat (microphone included) returns False and leaves the whole
routing system, in particular the session category override map,
unchanged; with a category in that set the override is recorded in the
map regardless of whether the subsequent routing of the session to the
category device succeeds. -/
theorem set_session_category_spec :
    (∀ (st : AudioRoutingSystem) (pid : ℤ) (c : Category),
      c ∉ [Category.game, Category.others, Category.system, Category.chat] →
        st.set_session_category pid c = (st, false))
    ∧ (∀ (st : AudioRoutingSystem) (pid : ℤ) (c : Category),
      c ∈ [Category.game, Category.others, Category.system, Category.chat] →
        alGet (st.set_session_category pid c).1.session_categories pid = some c) := by
  constructor
  · intro st pid c h
    rw [AudioRoutingSystem.set_session_category, if_pos h]
  · intro st pid c h
    rw [AudioRoutingSystem.set_session_category, if_neg (not_not_intro h)]
    rw [route_session_preserves_categories]
    exact alGet_alSet_self _ _ _

/-- C10 witness: on a routing system with no devices assigned, assigning
pid 42 to microphone is rejected with the state unchanged, and assigning
pid 42 to chat records the override even though routing to the chat
device fails for lack of one. -/
theorem set_session_category_spec_witness :
    c10_state.set_session_category 42 Category.microphone = (c10_state, false)
    ∧ alGet (c10_state.set_session_category 42 Category.chat).1.session_categories 42
      = some Category.chat :=
  ⟨set_session_category_spec.1 c10_state 42 Category.microphone (by decide),
   set_session_category_spec.2 c10_state 42 Category.chat (by decide)⟩

/-- C6 counterexample: in a routing system whose game and chat category
routes both reference bus 7, removing bus 7 through the virtual router
succeeds but removes neither category route: both still name the
removed bus afterward, against the claim that every route naming the
bus is removed. -/
theorem remove_bus_keeps_category_routes :
    (c6_state.remove_virtual_bus 7).1 = true
    ∧ alGet (c6_state.remove_virtual_bus 7).2.1.routes Category.game = some (1, 7)
    ∧ alGet (c6_state.remove_virtual_bus 7).2.1.routes Category.chat = some (2, 7) := by
  decide

/-- C6 (amended): removing an existing virtual bus returns True, calls
stop on the bus exactly once, removes every entry of the virtual
router's own routing table whose source or destination names the bus,
and removes the bus itself; the category routes of the routing system
are left untouched, so routes naming the bus survive there. -/
theorem remove_virtual_device_amended (st : AudioRoutingSystem) (name : ℕ)
    (h : alContains st.virtual_router.virtual_devices name = true) :
    (st.remove_virtual_bus name).1 = true
    ∧ (st.remove_virtual_bus name).2.2 = 1
    ∧ (∀ p ∈ (st.remove_virtual_bus name).2.1.virtual_router.routing_table,
        p.1 ≠ name ∧ p.2 ≠ name)
    ∧ alGet (st.remove_virtual_bus name).2.1.virtual_router.virtual_devices name = none
    ∧ (st.remove_virtual_bus name).2.1.routes = st.routes := by
  obtain ⟨d, hd⟩ : ∃ d, alGet st.virtual_router.virtual_devices name = some d := by
    unfold alContains at h
    exact Option.isSome_iff_exists.mp h
  simp only [AudioRoutingSystem.remove_virtual_bus,
    VirtualAudioRouter.remove_virtual_device, hd]
  refine ⟨trivial, trivial, ?_, ?_, trivial⟩
  · intro p hp
    have hcond := (List.mem_filter.mp hp).2
    simpa using hcond
  · exact alGet_alErase_self _ _

/-- C6 witness: the amended statement evaluated on the concrete state of
the counterexample: removal of bus 7 returns True, stops the bus once,
leaves no routing-table entry naming 7, deletes the bus, and leaves the
category routes as they were. -/
theorem remove_virtual_device_amended_witness :
    (c6_state.remove_virtual_bus 7).1 = true
    ∧ (c6_state.remove_virtual_bus 7).2.2 = 1
    ∧ alGet (c6_state.remove_virtual_bus 7).2.1.virtual_router.virtual_devices 7 = none
    ∧ (c6_state.remove_virtual_bus 7).2.1.routes = c6_state.routes := by
  obtain ⟨h1, h2, _h3, h4, h5⟩ := remove_virtual_device_amended c6_state 7 (by decide)
  exact ⟨h1, h2, h4, h5⟩

theorem except_bind_ok {eps alp bet : Type} (a : alp) (f : alp → Except eps bet) :
    (Except.ok a : Except eps alp) >>= f = f a := rfl

theorem unified_resolve_out (st : AudioRoutingSystem) (c : Category) (other dOut : ℕ)
    (h1 : st.unified_device_mode = true) (h2 : st.unified_output_device = some dOut)
    (h3 : dOut ≠ 0) (hc : c ≠ Category.microphone) :
    st.unified_resolve c other = dOut := by
  simp [AudioRoutingSystem.unified_resolve, h1, h2, h3, hc, truthy]

theorem unified_resolve_in (st : AudioRoutingSystem) (other dIn : ℕ)
    (h1 : st.unified_device_mode = true) (h2 : st.unified_input_device = some dIn)
    (h3 : dIn ≠ 0) :
    st.unified_resolve Category.microphone other = dIn := by
  simp [AudioRoutingSystem.unified_resolve, h1, h2, h3, truthy]

theorem set_device_for_audio_type_ok (dm : AudioDeviceManager) (c : Category)
    (idx : ℕ) (dev : PhysicalDevice)
    (hmem : c ∈ audio_types)
    (hfind : dm.devices.find? (fun d => decide (d.index = idx)) = some dev)
    (hok : (c = Category.microphone ∧ dev.typ = DeviceType.input)
      ∨ (c ≠ Category.microphone ∧ dev.typ = DeviceType.output)) :
    dm.set_device_for_audio_type c idx
      = Except.ok { dm with active_devices := alSet dm.active_devices c dev } := by
  unfold AudioDeviceManager.set_device_for_audio_type
  rw [if_neg (not_not_intro hmem)]
  simp only [hfind]
  rcases hok with ⟨hc, ht⟩ | ⟨hc, ht⟩
  · rw [if_neg (by simp [ht]), if_neg (by simp [hc])]
  · rw [if_neg (by simp [hc]), if_neg (by simp [ht])]

/-- C7 (amended): with unified mode enabled, create_route stores the
unified device in place of the supplied one provided the unified id for
the category direction is truthy (neither None nor the legal index 0)
and names an enumerated device of the correct direction: a non
microphone category stores the unified output device, the microphone
category stores the unified input device. -/
theorem unified_mode_override_amended :
    (∀ (st : AudioRoutingSystem) (c : Category) (dOut other bus : ℕ)
        (dev : PhysicalDevice),
      st.unified_device_mode = true →
      st.unified_output_device = some dOut →
      dOut ≠ 0 →
      st.device_manager.devices.find? (fun d => decide (d.index = dOut)) = some dev →
      dev.typ = DeviceType.output →
      c ∈ [Category.game, Category.others, Category.system, Category.chat] →
      routeStoredDevice st c other bus = some (dOut, bus))
    ∧ (∀ (st : AudioRoutingSystem) (dIn other bus : ℕ) (dev : PhysicalDevice),
      st.unified_device_mode = true →
      st.unified_input_device = some dIn →
      dIn ≠ 0 →
      st.device_manager.devices.find? (fun d => decide (d.index = dIn)) = some dev →
      dev.typ = DeviceType.input →
      routeStoredDevice st Category.microphone other bus = some (dIn, bus)) := by
  constructor
  · intro st c dOut other bus dev h1 h2 h3 hfind htyp hmem
    simp only [List.mem_cons, List.not_mem_nil, or_false] at hmem
    have hcne : c ≠ Category.microphone := by
      rcases hmem with rfl | rfl | rfl | rfl <;> decide
    have hmem5 : c ∈ audio_types := by
      rcases hmem with rfl | rfl | rfl | rfl <;> decide
    have hres := unified_resolve_out st c other dOut h1 h2 h3 hcne
    have hset := set_device_for_audio_type_ok st.device_manager c dOut dev
      hmem5 hfind (Or.inr ⟨hcne, htyp⟩)
    simp [routeStoredDevice, AudioRoutingSystem.create_route, hres, hset,
      except_bind_ok, alGet_alSet_self]
  · intro st dIn other bus dev h1 h2 h3 hfind htyp
    have hres := unified_resolve_in st other dIn h1 h2 h3
    have hset := set_device_for_audio_type_ok st.device_manager Category.microphone
      dIn dev (by decide) hfind (Or.inl ⟨rfl, htyp⟩)
    simp [routeStoredDevice, AudioRoutingSystem.create_route, hres, hset,
      except_bind_ok, alGet_alSet_self]

/-- C7 counterexample: index 0 is a legal device index, and after
enabling unified mode with output device 0 the Python truthiness guard
skips the override: create_route for chat with supplied device 1 stores
device 1, not the unified output device 0. -/
theorem unified_mode_zero_id_not_overridden :
    c7_state0.set_unified_device_mode true (some 0) none = Except.ok c7_state1
    ∧ c7_state1.unified_device_mode = true
    ∧ c7_state1.unified_output_device = some 0
    ∧ routeStoredDevice c7_state1 Category.chat 1 5 = some (1, 5)
    ∧ ¬ routeStoredDevice c7_state1 Category.chat 1 5 = some (0, 5) := by
  refine ⟨rfl, rfl, rfl, by decide, by decide⟩

/-- C7 witness: the amended statement evaluated on a routing system with
unified output device 1 and unified input device 2 over enumerated
devices 0, 1 (outputs) and 2 (input): create_route for chat with
supplied device 0 stores device 1, and for microphone stores device 2. -/
theorem unified_mode_override_amended_witness :
    routeStoredDevice c7w_state Category.chat 0 5 = some (1, 5)
    ∧ routeStoredDevice c7w_state Category.microphone 0 6 = some (2, 6) :=
  ⟨unified_mode_override_amended.1 c7w_state Category.chat 1 0 5 ⟨1, DeviceType.output⟩
      rfl rfl (by decide) (by decide) rfl (by decide),
   unified_mode_override_amended.2 c7w_state 2 0 6 ⟨2, DeviceType.input⟩
      rfl rfl (by decide) (by decide) rfl⟩
